import Mathlib

/-!
Verification of the `money` package of `learning-go`: scaled-decimal
values (`Decimal`), currencies (`Currency`), amounts (`Amount`), and
currency conversion (`Convert` / `applyExchangeRate` / `multiply`).

The embedding follows the Go source.  Functions returning
`(T, error)` become `Except`-valued functions; the `validate` method,
which returns `error` or `nil`, becomes an `Option MoneyError`.
Go's `int64` subunits are modelled as unbounded `Int` and the `byte`
precisions as `Nat`, following the spec's description of the missing
`decimal.go` file ("signed integer magnitude", "non-negative integer
count of fractional digits").
-/

namespace Money

/-- Modelled from the spec: the `Decimal` struct of the missing
`decimal.go` file.  `subunits` is the signed integer magnitude (the
value with its fractional point removed) and `precision` the count of
fractional digits it implicitly carries; semantic value is
`subunits / 10^precision`. -/
structure Decimal where
  subunits : Int
  precision : Nat
deriving DecidableEq, Repr

/-- `Currency` from `currency.go`: a 3-letter code and a decimal
precision. -/
structure Currency where
  code : String
  precision : Nat
deriving DecidableEq, Repr

/-- `Amount` from the amount file: a `Decimal` quantity bound to a
`Currency`. -/
structure Amount where
  quantity : Decimal
  currency : Currency
deriving DecidableEq, Repr

/-- `MoneyError` — the package's string-based error type. -/
structure MoneyError where
  msg : String
deriving DecidableEq, Repr

/-- `ErrTooPrecise` from the amount file. -/
def ErrTooPrecise : MoneyError :=
  ⟨"amount quantity is too precise for its currency"⟩

/-- Modelled from the spec: `ErrTooLarge` of the missing `decimal.go`
("`too large` — magnitude exceeds the fixed ceiling").  Only its
identity matters to the proofs, not its message text. -/
def ErrTooLarge : MoneyError := ⟨"too large"⟩

/-- `ErrInvalidCurrencyCode` from `currency.go`. -/
def ErrInvalidCurrencyCode : MoneyError :=
  ⟨"invalid currency code: must be 3 letters"⟩

/-- Modelled from the spec: `maxDecimal` of the missing `decimal.go`,
the fixed ceiling 10^12 ("Upper bound: `subunits` must not exceed a
fixed ceiling (10^12, `maxDecimal`)"). -/
def maxDecimal : Int := 1000000000000

/-- Modelled from the spec: `pow10` of the missing `decimal.go`,
returning `10^p` (its test table gives `pow10 p = 10^p` for
`p = 0..5`, with a uniform default case). -/
def pow10 (p : Nat) : Int := (10 : Int) ^ p

/-- Modelled from the spec: the loop body of `Decimal.simplify` —
"While `precision > 0` and `subunits` is evenly divisible by 10,
divide `subunits` by 10 and decrement `precision`."  The loop
decrements `precision` on every iteration, so it is structural
recursion on the precision.  `Int.tdiv` is Go's integer division
(truncation toward zero); on an exact multiple of 10 every division
convention agrees. -/
def simplifyLoop : Nat → Int → Decimal
  | 0, s => ⟨s, 0⟩
  | p + 1, s =>
      if s % 10 = 0 then simplifyLoop p (s.tdiv 10) else ⟨s, p + 1⟩

/-- Modelled from the spec: `Decimal.simplify`, the canonicalization
step. -/
def Decimal.simplify (d : Decimal) : Decimal :=
  simplifyLoop d.precision d.subunits

/-- `ExchangeRate` is a Decimal under a distinct semantic label
(`type ExchangeRate Decimal` in the conversion file). -/
abbrev ExchangeRate := Decimal

/-- `NewAmount` from the amount file: enforce that the quantity's
precision matches the currency's, widening with trailing zeros when
the quantity is less precise and rejecting quantities that are more
precise than the currency allows. -/
def NewAmount (quantity : Decimal) (currency : Currency) :
    Except MoneyError Amount :=
  if quantity.precision > currency.precision then
    .error ErrTooPrecise
  else if quantity.precision < currency.precision then
    .ok ⟨⟨quantity.subunits * pow10 (currency.precision - quantity.precision),
          currency.precision⟩, currency⟩
  else
    .ok ⟨quantity, currency⟩

/-- `Amount.validate` from the amount file: `nil` (`none`) unless the
subunits exceed `maxDecimal` or the quantity is more precise than the
currency allows. -/
def Amount.validate (a : Amount) : Option MoneyError :=
  if a.quantity.subunits > maxDecimal then some ErrTooLarge
  else if a.quantity.precision > a.currency.precision then some ErrTooPrecise
  else none

/-- `multiply` from the conversion file: multiply subunits, add
precisions, then simplify. -/
def multiply (d : Decimal) (er : ExchangeRate) : Decimal :=
  Decimal.simplify ⟨d.subunits * er.subunits, d.precision + er.precision⟩

/-- `applyExchangeRate` from the conversion file: multiply the
quantity by the rate, rescale the product to the target currency's
precision (truncating with Go integer division when too precise,
padding with zeros when not precise enough), and set the precision to
the target's. -/
def applyExchangeRate (originalAmount : Amount) (targetCurrency : Currency)
    (exchangeRate : ExchangeRate) : Amount :=
  let product := multiply originalAmount.quantity exchangeRate
  let subunits :=
    if product.precision > targetCurrency.precision then
      product.subunits.tdiv (pow10 (product.precision - targetCurrency.precision))
    else if product.precision < targetCurrency.precision then
      product.subunits * pow10 (targetCurrency.precision - product.precision)
    else
      product.subunits
  ⟨⟨subunits, targetCurrency.precision⟩, targetCurrency⟩

/-- The `ratesFetcher` interface: one method, `FetchExchangeRate`,
returning an `ExchangeRate` or an error (here an opaque message
string). -/
def RatesFetcher := Currency → Currency → Except String ExchangeRate

/-- The two failures `Convert` can produce, modelled structurally
instead of as formatted strings: a rate-fetch failure wrapped with the
source and target currency codes, or an invalid converted amount
wrapped with the amount and the underlying `MoneyError`. -/
inductive ConvertError where
  | fetchFailed (sourceCode targetCode : String) (cause : String)
  | invalidAmount (converted : Amount) (cause : MoneyError)
deriving DecidableEq, Repr

/-- `Convert` from the conversion file: fetch the rate (wrapping any
failure with the currency codes), apply it, validate the result
(wrapping any failure with the converted amount), and return the
converted amount. -/
def Convert (amount : Amount) (target : Currency) (rates : RatesFetcher) :
    Except ConvertError Amount :=
  match rates amount.currency target with
  | .error e => .error (.fetchFailed amount.currency.code target.code e)
  | .ok r =>
      let convertedValue := applyExchangeRate amount target r
      match convertedValue.validate with
      | some e => .error (.invalidAmount convertedValue e)
      | none => .ok convertedValue

/-- `ParseCurrency` from `currency.go`: reject codes whose (byte)
length is not 3, otherwise assign a precision from the fixed lookup
table, defaulting to 2.  Go's `len` on a string counts bytes, hence
`String.utf8ByteSize`. -/
def ParseCurrency (code : String) : Except MoneyError Currency :=
  if code.utf8ByteSize ≠ 3 then
    .error ErrInvalidCurrencyCode
  else if code = "IRR" then
    .ok ⟨code, 0⟩
  else if code = "MGA" ∨ code = "MRU" then
    .ok ⟨code, 1⟩
  else if code = "CNY" ∨ code = "VND" then
    .ok ⟨code, 1⟩
  else if code = "BHD" ∨ code = "IQD" ∨ code = "KWD" ∨ code = "LYD" ∨
      code = "OMR" ∨ code = "TND" then
    .ok ⟨code, 3⟩
  else
    .ok ⟨code, 2⟩

example : Decimal.simplify ⟨3000, 3⟩ = ⟨3, 0⟩ := by decide
example : Decimal.simplify ⟨150, 2⟩ = ⟨15, 1⟩ := by decide
example : multiply ⟨150, 2⟩ ⟨20, 1⟩ = ⟨3, 0⟩ := by decide
example : applyExchangeRate ⟨⟨314, 2⟩, ⟨"TST", 2⟩⟩ ⟨"TRG", 2⟩ ⟨252678, 5⟩ =
    ⟨⟨793, 2⟩, ⟨"TRG", 2⟩⟩ := by decide
example : ParseCurrency "123" = .ok ⟨"123", 2⟩ := rfl
example : ParseCurrency "BHD" = .ok ⟨"BHD", 3⟩ := rfl
example : ParseCurrency "US" = .error ErrInvalidCurrencyCode := rfl

/-- The simplification loop never increases the precision. -/
theorem simplifyLoop_precision_le : ∀ (p : Nat) (s : Int),
    (simplifyLoop p s).precision ≤ p
  | 0, _ => Nat.le_refl _
  | p + 1, s => by
      unfold simplifyLoop
      split
      · exact Nat.le_trans (simplifyLoop_precision_le p _) (Nat.le_succ p)
      · exact Nat.le_refl _

/-- The simplification loop stops only in canonical form: precision 0,
or subunits not divisible by 10. -/
theorem simplifyLoop_canonical : ∀ (p : Nat) (s : Int),
    (simplifyLoop p s).precision = 0 ∨ (simplifyLoop p s).subunits % 10 ≠ 0
  | 0, _ => Or.inl rfl
  | p + 1, s => by
      unfold simplifyLoop
      split
      · exact simplifyLoop_canonical p _
      · exact Or.inr (by assumption)

/-- For an amount whose quantity precision equals its currency
precision, `validate` is only the ceiling check. -/
theorem Amount.validate_of_precision_eq (a : Amount)
    (h : a.quantity.precision = a.currency.precision) :
    a.validate =
      if maxDecimal < a.quantity.subunits then some ErrTooLarge else none := by
  unfold Amount.validate
  rw [h]
  by_cases hb : maxDecimal < a.quantity.subunits
  · rw [if_pos hb, if_pos hb]
  · rw [if_neg hb, if_neg hb, if_neg (lt_irrefl _)]

/-- `Convert` when the rate fetch fails. -/
theorem Convert_of_fetch_error (a : Amount) (t : Currency)
    (rates : RatesFetcher) (e : String) (h : rates a.currency t = .error e) :
    Convert a t rates = .error (.fetchFailed a.currency.code t.code e) := by
  unfold Convert
  rw [h]

/-- `Convert` when the rate fetch succeeds: apply the rate, then
validate. -/
theorem Convert_of_fetch_ok (a : Amount) (t : Currency)
    (rates : RatesFetcher) (r : ExchangeRate) (h : rates a.currency t = .ok r) :
    Convert a t rates =
      match (applyExchangeRate a t r).validate with
      | some e => .error (.invalidAmount (applyExchangeRate a t r) e)
      | none => .ok (applyExchangeRate a t r) := by
  unfold Convert
  rw [h]

/-- The rescale step of `applyExchangeRate` always stamps the target
currency and its precision on the result. -/
theorem applyExchangeRate_precision (a : Amount) (t : Currency)
    (r : ExchangeRate) :
    (applyExchangeRate a t r).quantity.precision = t.precision ∧
    (applyExchangeRate a t r).currency = t :=
  ⟨rfl, rfl⟩

/-- C1: whenever the multiplied product has more fractional digits
than the target currency allows, `applyExchangeRate` (hence `Convert`)
reduces precision by Go integer division — truncation toward zero,
no rounding; and converting 3.14 (precision 2) at rate 2.52678 into a
2-precision target currency yields exactly 7.93, not 7.94. -/
theorem convert_truncates_excess_digits :
    (∀ (a : Amount) (c : Currency) (r : ExchangeRate),
        c.precision < (multiply a.quantity r).precision →
        (applyExchangeRate a c r).quantity =
          ⟨(multiply a.quantity r).subunits.tdiv
              (pow10 ((multiply a.quantity r).precision - c.precision)),
            c.precision⟩) ∧
    Convert ⟨⟨314, 2⟩, ⟨"TST", 2⟩⟩ ⟨"TRG", 2⟩ (fun _ _ => .ok ⟨252678, 5⟩)
      = .ok ⟨⟨793, 2⟩, ⟨"TRG", 2⟩⟩ := by
  constructor
  · intro a c r h
    simp only [applyExchangeRate]
    rw [if_pos h]
  · rfl

/-- Witness for C1 at the spec's own example: the product
3.14 × 2.52678 has precision 7 > 2, and the rescaled quantity is the
truncation 7.93. -/
theorem convert_truncates_excess_digits_witness :
    2 < (multiply (⟨314, 2⟩ : Decimal) (⟨252678, 5⟩ : ExchangeRate)).precision ∧
    (applyExchangeRate ⟨⟨314, 2⟩, ⟨"TST", 2⟩⟩ ⟨"TRG", 2⟩ ⟨252678, 5⟩).quantity
      = ⟨793, 2⟩ :=
  ⟨by decide,
    convert_truncates_excess_digits.1 ⟨⟨314, 2⟩, ⟨"TST", 2⟩⟩ ⟨"TRG", 2⟩
      ⟨252678, 5⟩ (by decide)⟩

/-- C2: whenever the fetch succeeds and the converted amount's
subunits exceed the 10^12 ceiling, `Convert` fails with the
`too large` error wrapped around the converted amount and returns no
`Amount` — the all-or-nothing failure of the validation step. -/
theorem convert_too_large_all_or_nothing (a : Amount) (t : Currency)
    (rates : RatesFetcher) (r : ExchangeRate)
    (hfetch : rates a.currency t = .ok r)
    (hbig : maxDecimal < (applyExchangeRate a t r).quantity.subunits) :
    Convert a t rates
      = .error (.invalidAmount (applyExchangeRate a t r) ErrTooLarge) := by
  rw [Convert_of_fetch_ok a t rates r hfetch]
  have hv : (applyExchangeRate a t r).validate = some ErrTooLarge := by
    unfold Amount.validate
    rw [if_pos hbig]
  rw [hv]

/-- Witness for C2 at the external test's too-large case: one billion
(precision 2) at rate 2000 converts to 2·10^12, which exceeds the
ceiling, and `Convert` returns exactly the `too large` failure. -/
theorem convert_too_large_all_or_nothing_witness :
    Convert ⟨⟨100000000000, 2⟩, ⟨"USD", 2⟩⟩ ⟨"EUR", 2⟩
        (fun _ _ => .ok ⟨2000, 0⟩)
      = .error (.invalidAmount
          (applyExchangeRate ⟨⟨100000000000, 2⟩, ⟨"USD", 2⟩⟩ ⟨"EUR", 2⟩
            ⟨2000, 0⟩) ErrTooLarge) :=
  convert_too_large_all_or_nothing _ _ _ _ rfl (by decide)

/-- C6: if the rate source fails, `Convert` returns a failure wrapping
that failure together with the source and target currency codes, and
no `Amount`.  `Convert` applies the fetcher exactly once, so no retry
is performed. -/
theorem convert_wraps_fetch_failure (a : Amount) (t : Currency)
    (rates : RatesFetcher) (e : String)
    (h : rates a.currency t = .error e) :
    Convert a t rates = .error (.fetchFailed a.currency.code t.code e) :=
  Convert_of_fetch_error a t rates e h

/-- Witness for C6 at the external test's failing-fetcher case. -/
theorem convert_wraps_fetch_failure_witness :
    Convert ⟨⟨1000, 2⟩, ⟨"CAD", 2⟩⟩ ⟨"GBP", 2⟩
        (fun _ _ => .error "network unavailable")
      = .error (.fetchFailed "CAD" "GBP" "network unavailable") :=
  convert_wraps_fetch_failure _ _ _ _ rfl

/-- C8: the raw product of two Decimals has subunits the product of
the subunits and precision exactly `p+q`; after the simplification
step `multiply` returns precision at most `p+q`. -/
theorem multiply_precision_law (d : Decimal) (er : ExchangeRate) :
    (Decimal.mk (d.subunits * er.subunits) (d.precision + er.precision)).precision
      = d.precision + er.precision ∧
    (multiply d er).precision ≤ d.precision + er.precision :=
  ⟨rfl, simplifyLoop_precision_le _ _⟩

/-- C9: `Amount.validate` is one-sided — it accepts every amount whose
quantity precision is within its currency's precision and whose
subunits are at most 10^12, with no lower bound on the subunits, so
arbitrarily negative subunits pass. -/
theorem validate_magnitude_check_one_sided (a : Amount)
    (hp : a.quantity.precision ≤ a.currency.precision)
    (hs : a.quantity.subunits ≤ maxDecimal) :
    a.validate = none := by
  unfold Amount.validate
  rw [if_neg (not_lt.mpr hs), if_neg (not_lt.mpr hp)]

/-- Witness for C9 at a negative amount whose absolute value is far
beyond the ceiling: validation still passes. -/
theorem validate_magnitude_check_one_sided_witness :
    (⟨⟨-1000000000000000, 2⟩, ⟨"USD", 2⟩⟩ : Amount).validate = none :=
  validate_magnitude_check_one_sided _ (by decide) (by decide)

/-- C3 counterexample: `NewAmount`'s rescaling does not keep the
quantity canonical — widening 1.5 (`{15, 1}`) into a 2-precision
currency yields `{150, 2}`, whose fractional part ends in a zero digit
while the precision is nonzero. -/
theorem newAmount_rescale_not_canonical :
    NewAmount ⟨15, 1⟩ ⟨"EUR", 2⟩ = .ok ⟨⟨150, 2⟩, ⟨"EUR", 2⟩⟩ ∧
    (150 : Int) % 10 = 0 ∧ (2 : Nat) ≠ 0 :=
  ⟨rfl, by decide, by decide⟩

/-- C3 amended: `multiply` (via the simplification step) always
returns a canonical Decimal — precision 0 or no trailing zero digit in
the fractional part; `NewAmount`'s rescaling and the conversion's
rescale step do not, since they widen the precision to the currency's
exact precision. -/
theorem multiply_result_canonical (d : Decimal) (er : ExchangeRate) :
    (multiply d er).precision = 0 ∨ (multiply d er).subunits % 10 ≠ 0 :=
  simplifyLoop_canonical _ _

/-- C4: `NewAmount` rejects a quantity more precise than the currency
with `too precise`; widens a less precise quantity by the exact power
of ten, losslessly (the widened value is numerically equal to the
input); and keeps an exactly-matching quantity unchanged. -/
theorem newAmount_precision_cases (q : Decimal) (c : Currency) :
    (c.precision < q.precision → NewAmount q c = .error ErrTooPrecise) ∧
    (q.precision < c.precision →
      NewAmount q c
        = .ok ⟨⟨q.subunits * pow10 (c.precision - q.precision), c.precision⟩, c⟩ ∧
      q.subunits * pow10 (c.precision - q.precision) * pow10 q.precision
        = q.subunits * pow10 c.precision) ∧
    (q.precision = c.precision → NewAmount q c = .ok ⟨q, c⟩) := by
  refine ⟨?_, ?_, ?_⟩
  · intro h
    unfold NewAmount
    rw [if_pos h]
  · intro h
    refine ⟨?_, ?_⟩
    · unfold NewAmount
      rw [if_neg (by omega), if_pos h]
    · unfold pow10
      rw [mul_assoc, ← pow_add]
      have he : c.precision - q.precision + q.precision = c.precision := by omega
      rw [he]
  · intro h
    unfold NewAmount
    rw [if_neg (by omega), if_neg (by omega)]

/-- Witness for C4: 1.234 is too precise for a 2-precision currency;
1.5 widens to exactly 1.50; 1.52 is used unchanged. -/
theorem newAmount_precision_cases_witness :
    NewAmount ⟨1234, 3⟩ ⟨"EUR", 2⟩ = .error ErrTooPrecise ∧
    NewAmount ⟨15, 1⟩ ⟨"GBP", 2⟩ = .ok ⟨⟨150, 2⟩, ⟨"GBP", 2⟩⟩ ∧
    NewAmount ⟨152, 2⟩ ⟨"CAD", 2⟩ = .ok ⟨⟨152, 2⟩, ⟨"CAD", 2⟩⟩ :=
  ⟨(newAmount_precision_cases ⟨1234, 3⟩ ⟨"EUR", 2⟩).1 (by decide),
   ((newAmount_precision_cases ⟨15, 1⟩ ⟨"GBP", 2⟩).2.1 (by decide)).1,
   (newAmount_precision_cases ⟨152, 2⟩ ⟨"CAD", 2⟩).2.2 rfl⟩

/-- C5 counterexample: `ParseCurrency` accepts `"123"`, a 3-character
string that is not made of letters, while the claim says every such
input is rejected. -/
theorem parseCurrency_accepts_three_nonletters :
    ParseCurrency "123" = .ok ⟨"123", 2⟩ :=
  rfl

/-- C5 amended: `ParseCurrency` fails with the `invalid currency code`
error exactly when the input's byte length is not 3; every 3-byte
string is accepted, with no check that its characters are letters. -/
theorem parseCurrency_checks_length_only (code : String) :
    ParseCurrency code = .error ErrInvalidCurrencyCode ↔
      code.utf8ByteSize ≠ 3 := by
  constructor
  · intro h
    by_contra hlen
    unfold ParseCurrency at h
    rw [if_neg (not_not_intro hlen)] at h
    repeat' split at h
    all_goals exact Except.noConfusion h
  · intro h
    unfold ParseCurrency
    rw [if_pos h]

/-- C7 counterexample: `NewAmount` performs no ceiling check — widening
the 0-precision quantity 2·10^12 into a 2-precision currency succeeds
with subunits 2·10^14, far beyond the 10^12 ceiling, instead of
failing with `too large`. -/
theorem newAmount_exceeds_ceiling_ok :
    NewAmount ⟨2000000000000, 0⟩ ⟨"USD", 2⟩
      = .ok ⟨⟨200000000000000, 2⟩, ⟨"USD", 2⟩⟩ ∧
    maxDecimal < 200000000000000 :=
  ⟨rfl, by decide⟩

/-- C7 amended: `NewAmount` itself never returns `too large` (its only
error is `too precise`); the 10^12 ceiling is enforced by
`Amount.validate`, which for any Amount built by `NewAmount` fails
with `too large` exactly when the (possibly rescaled) subunits exceed
the ceiling. -/
theorem ceiling_enforced_by_validate_only (q : Decimal) (c : Currency) :
    (∀ e, NewAmount q c = .error e → e = ErrTooPrecise) ∧
    (∀ a, NewAmount q c = .ok a →
      a.quantity.precision = c.precision ∧
      (a.validate = some ErrTooLarge ↔ maxDecimal < a.quantity.subunits)) := by
  constructor
  · intro e he
    unfold NewAmount at he
    split at he
    · injection he with h
      exact h.symm
    · split at he
      all_goals exact Except.noConfusion he
  · intro a ha
    unfold NewAmount at ha
    split at ha
    · exact Except.noConfusion ha
    split at ha
    · injection ha with h
      subst h
      refine ⟨rfl, ?_⟩
      rw [Amount.validate_of_precision_eq _ rfl]
      by_cases hb : maxDecimal < q.subunits * pow10 (c.precision - q.precision)
      · rw [if_pos hb]
        exact iff_of_true rfl hb
      · rw [if_neg hb]
        exact iff_of_false (by simp) hb
    · rename_i h1 h2
      injection ha with h
      subst h
      have hpc : q.precision = c.precision := by omega
      refine ⟨hpc, ?_⟩
      rw [Amount.validate_of_precision_eq ⟨q, c⟩ hpc]
      by_cases hb : maxDecimal < q.subunits
      · rw [if_pos hb]
        exact iff_of_true rfl hb
      · rw [if_neg hb]
        exact iff_of_false (by simp) hb

/-- Witness for C7: the quantity 1.234 into a 2-precision currency
gives the `too precise` error, and the Amount built from the
0-precision quantity 2·10^12 fails validation exactly because its
rescaled subunits 2·10^14 exceed the ceiling. -/
theorem ceiling_enforced_by_validate_only_witness :
    ErrTooPrecise = ErrTooPrecise ∧
    ((⟨⟨200000000000000, 2⟩, ⟨"USD", 2⟩⟩ : Amount).quantity.precision = 2 ∧
      ((⟨⟨200000000000000, 2⟩, ⟨"USD", 2⟩⟩ : Amount).validate
          = some ErrTooLarge ↔
        maxDecimal < 200000000000000)) :=
  ⟨(ceiling_enforced_by_validate_only ⟨1234, 3⟩ ⟨"USD", 2⟩).1 ErrTooPrecise rfl,
   (ceiling_enforced_by_validate_only ⟨2000000000000, 0⟩ ⟨"USD", 2⟩).2
     ⟨⟨200000000000000, 2⟩, ⟨"USD", 2⟩⟩ rfl⟩

/-- C10: `applyExchangeRate` always sets the quantity precision to the
target currency's precision, so `validate` of a converted amount never
yields `too precise`, and every `invalidAmount` failure out of
`Convert` carries `too large`. -/
theorem convert_never_too_precise (a : Amount) (t : Currency)
    (r : ExchangeRate) :
    (applyExchangeRate a t r).quantity.precision = t.precision ∧
    (applyExchangeRate a t r).validate ≠ some ErrTooPrecise ∧
    ∀ (rates : RatesFetcher) (b : Amount) (e : MoneyError),
      Convert a t rates = .error (.invalidAmount b e) → e = ErrTooLarge := by
  refine ⟨rfl, ?_, ?_⟩
  · rw [Amount.validate_of_precision_eq _ rfl]
    split
    · intro h
      injection h with h2
      exact absurd h2 (by decide)
    · simp
  · intro rates b e h
    rcases hr : rates a.currency t with e' | r'
    · rw [Convert_of_fetch_error a t rates e' hr] at h
      injection h with h2
      exact ConvertError.noConfusion h2
    · rw [Convert_of_fetch_ok a t rates r' hr] at h
      rw [Amount.validate_of_precision_eq _ rfl] at h
      by_cases hb : maxDecimal < (applyExchangeRate a t r').quantity.subunits
      · rw [if_pos hb] at h
        injection h with h2
        injection h2 with h3 h4
        exact h4.symm
      · rw [if_neg hb] at h
        exact Except.noConfusion h

/-- Witness for C10 at the too-large conversion: the converted
precision is the target's, validation does not report `too precise`,
and the concrete `invalidAmount` failure carries `too large`. -/
theorem convert_never_too_precise_witness :
    (applyExchangeRate ⟨⟨100000000000, 2⟩, ⟨"USD", 2⟩⟩ ⟨"EUR", 2⟩
        ⟨2000, 0⟩).quantity.precision = 2 ∧
    (applyExchangeRate ⟨⟨100000000000, 2⟩, ⟨"USD", 2⟩⟩ ⟨"EUR", 2⟩
        ⟨2000, 0⟩).validate ≠ some ErrTooPrecise ∧
    ErrTooLarge = ErrTooLarge :=
  ⟨(convert_never_too_precise ⟨⟨100000000000, 2⟩, ⟨"USD", 2⟩⟩ ⟨"EUR", 2⟩
      ⟨2000, 0⟩).1,
   (convert_never_too_precise ⟨⟨100000000000, 2⟩, ⟨"USD", 2⟩⟩ ⟨"EUR", 2⟩
      ⟨2000, 0⟩).2.1,
   (convert_never_too_precise ⟨⟨100000000000, 2⟩, ⟨"USD", 2⟩⟩ ⟨"EUR", 2⟩
      ⟨2000, 0⟩).2.2 (fun _ _ => .ok ⟨2000, 0⟩)
     ⟨⟨200000000000000, 2⟩, ⟨"EUR", 2⟩⟩ ErrTooLarge rfl⟩

end Money
